import Mathlib

/-!
Shallow embedding of src/main.py of robot-coder/converse-crafters:
a FastAPI chat relay with an in-memory session store (a Python dict
from session id to a dict holding a "history" string), a POST /chat
handler that relays the transcript to an external generation API, and
a POST /reset handler that deletes a session.

The session store is modelled as an association list from session id
to the history string (Python dict keys are unique, so lookup returns
the first match, update overwrites the match, and pop removes it).
The single outbound HTTP call is modelled by passing its result as an
explicit parameter of the handler.  Crucially, the embedding keeps the
Python aliasing semantics of `sessions.get(msg.session_id, {"history": ""})`:
when the key is present the fetched session dict IS the stored dict, so
the in-place `session["history"] += ...` mutates the store immediately.
-/

/-- In-memory store: session id -> history string (the value of the
stored dict's single "history" key). -/
abbrev Store := List (String × String)

/-- Python `sessions.get(key, default)` without the default: first binding
of the key, if any. -/
def storeGet (s : Store) (key : String) : Option String :=
  match s with
  | [] => none
  | (k, v) :: rest => if k = key then some v else storeGet rest key

/-- Python `sessions[key] = val`: overwrite the binding if present, else add it. -/
def storeSet (s : Store) (key val : String) : Store :=
  match s with
  | [] => [(key, val)]
  | (k, v) :: rest => if k = key then (key, val) :: rest else (k, v) :: storeSet rest key val

/-- Python `sessions.pop(key, None)`: remove the binding of the key if present
(dict keys are unique, so removing every occurrence is the same). -/
def storePop (s : Store) (key : String) : Store :=
  match s with
  | [] => []
  | (k, v) :: rest => if k = key then storePop rest key else (k, v) :: storePop rest key

/-- Line 19: the fixed allow-list of supported model identifiers. -/
def SUPPORTED_MODELS : List String := ["liteLLM"]

/-- Request body of POST /chat (the pydantic `Message` model).  `model` is
optional with default "liteLLM"; an explicit JSON null arrives as `none`
(and `None not in SUPPORTED_MODELS` then rejects it). -/
structure Message where
  session_id : String
  message : String
  model : Option String := some "liteLLM"
deriving DecidableEq, Repr

/-- Line 32: `msg.model not in SUPPORTED_MODELS`, negated. -/
def modelSupported : Option String → Bool
  | none => false
  | some m => SUPPORTED_MODELS.contains m

/-- Outcome of the single outbound httpx POST to the generation endpoint.
`transportError cause` covers every `httpx.HTTPError` (network failure,
timeout, and the `raise_for_status` error on a non-success status), with
`cause` the `str(e)` text.  `jsonBody text?` is a success whose JSON body
has the given "text" field (`none` when the field is missing). -/
inductive UpstreamResult where
  | transportError (cause : String)
  | jsonBody (text? : Option String)
deriving DecidableEq, Repr

/-- Code points Python treats as whitespace (str.isspace() true, the set
CPython's _PyUnicode_IsWhitespace accepts): tab through carriage return,
the ASCII separators 1C-1F, space, next line 85, no-break space A0, Ogham
space mark 1680, the en-quad through hair-space range 2000-200A, line and
paragraph separators 2028/2029, narrow no-break space 202F, medium
mathematical space 205F, and ideographic space 3000. -/
def PY_WHITESPACE : List Nat :=
  [0x09, 0x0A, 0x0B, 0x0C, 0x0D, 0x1C, 0x1D, 0x1E, 0x1F, 0x20,
   0x85, 0xA0, 0x1680,
   0x2000, 0x2001, 0x2002, 0x2003, 0x2004, 0x2005, 0x2006, 0x2007,
   0x2008, 0x2009, 0x200A, 0x2028, 0x2029, 0x202F, 0x205F, 0x3000]

/-- Python's default strip set for `str.strip()`: every character whose
str.isspace() is true. -/
def isPySpace (c : Char) : Bool :=
  PY_WHITESPACE.contains c.toNat

/-- Drop the leading whitespace of a character list. -/
def dropSpaces : List Char → List Char
  | [] => []
  | c :: rest => if isPySpace c then dropSpaces rest else c :: rest

/-- Python `str.strip()`: remove leading and trailing whitespace. -/
def strip (s : String) : String :=
  ⟨(dropSpaces ((dropSpaces s.data).reverse)).reverse⟩

/-- Response of the /chat handler: either HTTP 200 with `{"reply": reply}`
or an `HTTPException` with a status code and a detail string. -/
inductive ChatResponse where
  | ok (reply : String)
  | httpError (status : Nat) (detail : String)
deriving DecidableEq, Repr

/-- Whether a chat response is the HTTP 200 success. -/
def ChatResponse.isOk : ChatResponse → Bool
  | .ok _ => true
  | .httpError _ _ => false

/-- Everything observable about one /chat request: the response, the store
after the request, and the prompt of the outbound call (`none` when no
outbound call was made). -/
structure ChatOutcome where
  response : ChatResponse
  sessions : Store
  upstreamPrompt : Option String
deriving DecidableEq, Repr

/-- Lines 27-74, `chat_endpoint`.  `sessions` is the store before the
request; `upstream` is what the outbound call would yield.  The fixed
generation parameters (max_tokens = 150, temperature = 0.7) and the
hardcoded endpoint URL are constants of the request body and are not
observable in any claim, so only the prompt of the call is recorded. -/
def chat_endpoint (sessions : Store) (msg : Message) (upstream : UpstreamResult) :
    ChatOutcome :=
  if modelSupported msg.model then
    -- session = sessions.get(msg.session_id, {"history": ""})
    let history0 := (storeGet sessions msg.session_id).getD ""
    -- session["history"] += f"User: {msg.message}\n"  -- in-place: when the
    -- key is present, `session` aliases the stored dict, so this mutation
    -- is already visible in the store before the outbound call.
    let history1 := history0 ++ "User: " ++ msg.message ++ "\n"
    let sessions1 :=
      if (storeGet sessions msg.session_id).isSome then
        storeSet sessions msg.session_id history1
      else sessions
    -- prompt = session["history"] + "Assistant:"
    let prompt := history1 ++ "Assistant:"
    match upstream with
    | .transportError cause =>
        -- except (httpx.HTTPError, ValueError): HTTPException(500, ...)
        ⟨.httpError 500 ("LLM API error: " ++ cause), sessions1, some prompt⟩
    | .jsonBody text? =>
        -- reply = data.get("text", "").strip()
        let reply := strip (text?.getD "")
        if reply = "" then
          -- ValueError("Empty response from LLM.") caught by the same handler
          ⟨.httpError 500 ("LLM API error: " ++ "Empty response from LLM."),
            sessions1, some prompt⟩
        else
          -- session["history"] += f"Assistant: {reply}\n"; sessions[...] = session
          let history2 := history1 ++ "Assistant: " ++ reply ++ "\n"
          ⟨.ok reply, storeSet sessions1 msg.session_id history2, some prompt⟩
  else
    ⟨.httpError 400 "Unsupported model selected.", sessions, none⟩

/-- Response of the /reset handler: HTTP 200 with `{"status": status}` or
an `HTTPException`. -/
inductive ResetResponse where
  | ok (status : String)
  | httpError (status : Nat) (detail : String)
deriving DecidableEq, Repr

/-- Lines 77-87, `reset_session`.  `session_id?` is `data.get("session_id")`:
`none` when the body has no session_id field.  `if not session_id` treats
both `None` and the empty string as missing. -/
def reset_session (sessions : Store) (session_id? : Option String) :
    ResetResponse × Store :=
  match session_id? with
  | none => (.httpError 400 "session_id is required.", sessions)
  | some sid =>
      if sid = "" then (.httpError 400 "session_id is required.", sessions)
      else (.ok "session reset", storePop sessions sid)

/-! Store lemmas -/

theorem storeGet_storeSet_self (s : Store) (k v : String) :
    storeGet (storeSet s k v) k = some v := by
  induction s with
  | nil => simp [storeSet, storeGet]
  | cons hd tl ih =>
      obtain ⟨a, b⟩ := hd
      by_cases ha : a = k
      · subst ha; simp [storeSet, storeGet]
      · simp [storeSet, storeGet, ha, ih]

theorem storeGet_storeSet_ne (s : Store) (k v k' : String) (h : k' ≠ k) :
    storeGet (storeSet s k v) k' = storeGet s k' := by
  have hkk : k ≠ k' := Ne.symm h
  induction s with
  | nil => simp [storeSet, storeGet, hkk]
  | cons hd tl ih =>
      obtain ⟨a, b⟩ := hd
      by_cases ha : a = k
      · subst ha; simp [storeSet, storeGet, hkk]
      · simp [storeSet, storeGet, ha, ih]

theorem storeGet_storePop_self (s : Store) (k : String) :
    storeGet (storePop s k) k = none := by
  induction s with
  | nil => rfl
  | cons hd tl ih =>
      obtain ⟨a, b⟩ := hd
      by_cases ha : a = k <;> simp [storePop, storeGet, ha, ih]

theorem storePop_storePop (s : Store) (k : String) :
    storePop (storePop s k) k = storePop s k := by
  induction s with
  | nil => rfl
  | cons hd tl ih =>
      obtain ⟨a, b⟩ := hd
      by_cases ha : a = k <;> simp [storePop, ha, ih]

theorem string_empty_append (s : String) : "" ++ s = s := rfl

/-- Texts made only of non-ASCII Python whitespace (file separator 1C, next
line 85, no-break space A0) strip to empty, as in CPython. -/
theorem strip_python_whitespace_only :
    strip "\x1c" = "" ∧ strip "\u0085" = "" ∧ strip "\u00A0" = ""
      ∧ strip "\u00A0ra\u00A0" = "ra" ∧ strip "\u3000 hi\u2028" = "hi" := by
  decide

/-- The prompt of a chat call that passes model validation is always the
stored history (or "" when the id is absent), then the user turn, then the
"Assistant:" marker, whatever the upstream does. -/
theorem chat_upstreamPrompt_eq (sessions : Store) (msg : Message) (u : UpstreamResult)
    (hm : modelSupported msg.model = true) :
    (chat_endpoint sessions msg u).upstreamPrompt
      = some ((storeGet sessions msg.session_id).getD ""
          ++ "User: " ++ msg.message ++ "\n" ++ "Assistant:") := by
  cases u with
  | transportError cause => simp [chat_endpoint, hm]
  | jsonBody text? =>
      by_cases hr : strip (text?.getD "") = "" <;> simp [chat_endpoint, hm, hr]

/-- A chat call never touches the binding of any other session id. -/
theorem chat_storeGet_ne (sessions : Store) (msg : Message) (u : UpstreamResult)
    (sid : String) (hid : sid ≠ msg.session_id) :
    storeGet (chat_endpoint sessions msg u).sessions sid = storeGet sessions sid := by
  by_cases hm : modelSupported msg.model = true
  · by_cases hpres : (storeGet sessions msg.session_id).isSome = true
    · cases u with
      | transportError cause =>
          simp [chat_endpoint, hm, hpres, storeGet_storeSet_ne _ _ _ _ hid]
      | jsonBody text? =>
          by_cases hr : strip (text?.getD "") = "" <;>
            simp [chat_endpoint, hm, hpres, hr, storeGet_storeSet_ne _ _ _ _ hid]
    · cases u with
      | transportError cause =>
          simp [chat_endpoint, hm, hpres, storeGet_storeSet_ne _ _ _ _ hid]
      | jsonBody text? =>
          by_cases hr : strip (text?.getD "") = "" <;>
            simp [chat_endpoint, hm, hpres, hr, storeGet_storeSet_ne _ _ _ _ hid]
  · simp [chat_endpoint, hm]

/-! Claim theorems -/

/-- C7: POST /chat with session_id "s1" and message "hi" on a fresh store,
where the upstream responds successfully with text " hello ", returns the
trimmed reply "hello" and stores the transcript
"User: hi\nAssistant: hello\n" for "s1". -/
theorem C7_end_to_end :
    chat_endpoint [] ⟨"s1", "hi", some "liteLLM"⟩ (.jsonBody (some " hello "))
    = ⟨.ok "hello", [("s1", "User: hi\nAssistant: hello\n")], some "User: hi\nAssistant:"⟩ := by
  decide

/-- C1: the failure-atomicity claim fails on the code.  With session "s1"
already stored under history "User: a\nAssistant: b\n", a chat call whose
outbound call fails responds 500 yet persists the user turn, because the
session dict fetched by sessions.get aliases the stored one and the
in-place history append mutates it before the outbound call: the stored
transcript after the request differs from the one before. -/
theorem C1_code_bug_eval :
    (chat_endpoint [("s1", "User: a\nAssistant: b\n")] ⟨"s1", "x", some "liteLLM"⟩
        (.transportError "timeout")).response
      = ChatResponse.httpError 500 "LLM API error: timeout" ∧
    (chat_endpoint [("s1", "User: a\nAssistant: b\n")] ⟨"s1", "x", some "liteLLM"⟩
        (.transportError "timeout")).sessions
      = [("s1", "User: a\nAssistant: b\nUser: x\n")] ∧
    [("s1", "User: a\nAssistant: b\nUser: x\n")]
      ≠ ([("s1", "User: a\nAssistant: b\n")] : Store) := by
  decide

/-- C2: a chat request whose model is outside the allow-list yields HTTP 400
with the fixed detail, performs no outbound call, and leaves the session
store unchanged. -/
theorem C2_unsupported_model (sessions : Store) (msg : Message) (u : UpstreamResult)
    (h : modelSupported msg.model = false) :
    (chat_endpoint sessions msg u).response
      = ChatResponse.httpError 400 "Unsupported model selected." ∧
    (chat_endpoint sessions msg u).upstreamPrompt = none ∧
    (chat_endpoint sessions msg u).sessions = sessions := by
  simp [chat_endpoint, h]

/-- Witness for C2 at the concrete model "gpt-4" on a one-session store. -/
theorem C2_unsupported_model_witness :
    modelSupported (some "gpt-4") = false ∧
    ((chat_endpoint [("a", "h")] ⟨"a", "hi", some "gpt-4"⟩ (.jsonBody (some "x"))).response
        = ChatResponse.httpError 400 "Unsupported model selected." ∧
      (chat_endpoint [("a", "h")] ⟨"a", "hi", some "gpt-4"⟩
          (.jsonBody (some "x"))).upstreamPrompt = none ∧
      (chat_endpoint [("a", "h")] ⟨"a", "hi", some "gpt-4"⟩
          (.jsonBody (some "x"))).sessions = [("a", "h")]) :=
  ⟨by decide, C2_unsupported_model [("a", "h")] ⟨"a", "hi", some "gpt-4"⟩
    (.jsonBody (some "x")) (by decide)⟩

/-- C6: when the upstream HTTP call succeeds but the "text" field is missing
or whitespace-only after trimming, the chat call fails with HTTP 500 whose
detail embeds the underlying cause, with the same status and the same
detail shape as a transport failure. -/
theorem C6_empty_reply_is_upstream_error (sessions : Store) (msg : Message)
    (text? : Option String) (cause : String)
    (hm : modelSupported msg.model = true) (h : strip (text?.getD "") = "") :
    (chat_endpoint sessions msg (.jsonBody text?)).response
      = ChatResponse.httpError 500 ("LLM API error: " ++ "Empty response from LLM.") ∧
    (chat_endpoint sessions msg (.transportError cause)).response
      = ChatResponse.httpError 500 ("LLM API error: " ++ cause) := by
  constructor
  · simp [chat_endpoint, hm, h]
  · simp [chat_endpoint, hm]

/-- Witness for C6 at a whitespace-only upstream text field. -/
theorem C6_empty_reply_witness :
    modelSupported (some "liteLLM") = true ∧
    strip ((some " \u00A0\x1c\u0085").getD "") = "" ∧
    ((chat_endpoint [] ⟨"s", "m", some "liteLLM"⟩
          (.jsonBody (some " \u00A0\x1c\u0085"))).response
        = ChatResponse.httpError 500 ("LLM API error: " ++ "Empty response from LLM.") ∧
      (chat_endpoint [] ⟨"s", "m", some "liteLLM"⟩ (.transportError "timed out")).response
        = ChatResponse.httpError 500 ("LLM API error: " ++ "timed out")) :=
  ⟨by decide, by decide,
    C6_empty_reply_is_upstream_error [] ⟨"s", "m", some "liteLLM"⟩
      (some " \u00A0\x1c\u0085") "timed out" (by decide) (by decide)⟩

/-- C10: POST /reset with session_id present but equal to "" is rejected with
HTTP 400 and leaves the store unchanged — identical to the response for an
absent session_id — even when a session is stored under the key "". -/
theorem C10_reset_empty_session_id (sessions : Store) :
    reset_session sessions (some "")
      = (ResetResponse.httpError 400 "session_id is required.", sessions) ∧
    reset_session sessions none
      = (ResetResponse.httpError 400 "session_id is required.", sessions) := by
  constructor <;> rfl

/-- C3: a first chat message on a session id absent from the store sends a
prompt built from a transcript holding exactly one user turn, and on a
successful reply stores exactly one user turn followed by exactly one
assistant turn. -/
theorem C3_first_message (sessions : Store) (msg : Message) (text : String)
    (hm : modelSupported msg.model = true)
    (habs : storeGet sessions msg.session_id = none)
    (hne : strip text ≠ "") :
    (chat_endpoint sessions msg (.jsonBody (some text))).upstreamPrompt
      = some ("User: " ++ msg.message ++ "\n" ++ "Assistant:") ∧
    storeGet (chat_endpoint sessions msg (.jsonBody (some text))).sessions msg.session_id
      = some ("User: " ++ msg.message ++ "\n" ++ "Assistant: " ++ strip text ++ "\n") ∧
    (chat_endpoint sessions msg (.jsonBody (some text))).response
      = ChatResponse.ok (strip text) := by
  simp [chat_endpoint, hm, habs, hne, storeGet_storeSet_self, string_empty_append]

/-- Witness for C3 on the empty store. -/
theorem C3_first_message_witness :
    modelSupported (some "liteLLM") = true ∧
    storeGet [] "s1" = none ∧ strip " hey " ≠ "" ∧
    ((chat_endpoint [] ⟨"s1", "hi", some "liteLLM"⟩ (.jsonBody (some " hey "))).upstreamPrompt
        = some ("User: " ++ "hi" ++ "\n" ++ "Assistant:") ∧
      storeGet (chat_endpoint [] ⟨"s1", "hi", some "liteLLM"⟩
          (.jsonBody (some " hey "))).sessions "s1"
        = some ("User: " ++ "hi" ++ "\n" ++ "Assistant: " ++ strip " hey " ++ "\n") ∧
      (chat_endpoint [] ⟨"s1", "hi", some "liteLLM"⟩ (.jsonBody (some " hey "))).response
        = ChatResponse.ok (strip " hey ")) :=
  ⟨by decide, by decide, by decide,
    C3_first_message [] ⟨"s1", "hi", some "liteLLM"⟩ " hey " (by decide) (by decide) (by decide)⟩

/-- C4: two sequential successful chat turns with messages A then B on a
session id absent from the store leave exactly the transcript
"User: A\nAssistant: replyA\nUser: B\nAssistant: replyB\n" stored, where
each reply is the trimmed upstream text. -/
theorem C4_two_sequential_turns (sessions : Store) (sid a b t1 t2 : String)
    (habs : storeGet sessions sid = none)
    (h1 : strip t1 ≠ "") (h2 : strip t2 ≠ "") :
    (chat_endpoint sessions ⟨sid, a, some "liteLLM"⟩ (.jsonBody (some t1))).response
      = ChatResponse.ok (strip t1) ∧
    (chat_endpoint
        (chat_endpoint sessions ⟨sid, a, some "liteLLM"⟩ (.jsonBody (some t1))).sessions
        ⟨sid, b, some "liteLLM"⟩ (.jsonBody (some t2))).response
      = ChatResponse.ok (strip t2) ∧
    storeGet (chat_endpoint
        (chat_endpoint sessions ⟨sid, a, some "liteLLM"⟩ (.jsonBody (some t1))).sessions
        ⟨sid, b, some "liteLLM"⟩ (.jsonBody (some t2))).sessions sid
      = some ("User: " ++ a ++ "\n" ++ "Assistant: " ++ strip t1 ++ "\n"
          ++ "User: " ++ b ++ "\n" ++ "Assistant: " ++ strip t2 ++ "\n") := by
  simp [chat_endpoint, habs, h1, h2, storeGet_storeSet_self, string_empty_append,
    modelSupported, SUPPORTED_MODELS, String.append_assoc]

/-- Witness for C4 on the empty store with messages "A", "B". -/
theorem C4_two_sequential_turns_witness :
    storeGet [] "s" = none ∧ strip "ra" ≠ "" ∧ strip "rb" ≠ "" ∧
    ((chat_endpoint [] ⟨"s", "A", some "liteLLM"⟩ (.jsonBody (some "ra"))).response
        = ChatResponse.ok (strip "ra") ∧
      (chat_endpoint
          (chat_endpoint [] ⟨"s", "A", some "liteLLM"⟩ (.jsonBody (some "ra"))).sessions
          ⟨"s", "B", some "liteLLM"⟩ (.jsonBody (some "rb"))).response
        = ChatResponse.ok (strip "rb") ∧
      storeGet (chat_endpoint
          (chat_endpoint [] ⟨"s", "A", some "liteLLM"⟩ (.jsonBody (some "ra"))).sessions
          ⟨"s", "B", some "liteLLM"⟩ (.jsonBody (some "rb"))).sessions "s"
        = some ("User: " ++ "A" ++ "\n" ++ "Assistant: " ++ strip "ra" ++ "\n"
            ++ "User: " ++ "B" ++ "\n" ++ "Assistant: " ++ strip "rb" ++ "\n")) :=
  ⟨by decide, by decide, by decide,
    C4_two_sequential_turns [] "s" "A" "B" "ra" "rb" (by decide) (by decide) (by decide)⟩

/-- C5: reset is idempotent for a non-empty session id: both calls return the
same success status, the session is gone afterwards, the second reset leaves
the store exactly as the first, and a subsequent chat on that id builds its
prompt from an empty transcript. -/
theorem C5_reset_idempotent (sessions : Store) (sid m : String) (u : UpstreamResult)
    (h : sid ≠ "") :
    (reset_session sessions (some sid)).1 = ResetResponse.ok "session reset" ∧
    (reset_session (reset_session sessions (some sid)).2 (some sid)).1
      = ResetResponse.ok "session reset" ∧
    storeGet (reset_session sessions (some sid)).2 sid = none ∧
    (reset_session (reset_session sessions (some sid)).2 (some sid)).2
      = (reset_session sessions (some sid)).2 ∧
    (chat_endpoint (reset_session sessions (some sid)).2 ⟨sid, m, some "liteLLM"⟩
        u).upstreamPrompt
      = some ("User: " ++ m ++ "\n" ++ "Assistant:") := by
  refine ⟨by simp [reset_session, h], by simp [reset_session, h],
    by simp [reset_session, h, storeGet_storePop_self],
    by simp [reset_session, h, storePop_storePop], ?_⟩
  rw [chat_upstreamPrompt_eq (reset_session sessions (some sid)).2
    ⟨sid, m, some "liteLLM"⟩ u rfl]
  simp [reset_session, h, storeGet_storePop_self, string_empty_append]

/-- Witness for C5 on a two-session store. -/
theorem C5_reset_idempotent_witness :
    "a" ≠ "" ∧
    ((reset_session [("a", "X"), ("b", "Y")] (some "a")).1
        = ResetResponse.ok "session reset" ∧
      (reset_session (reset_session [("a", "X"), ("b", "Y")] (some "a")).2 (some "a")).1
        = ResetResponse.ok "session reset" ∧
      storeGet (reset_session [("a", "X"), ("b", "Y")] (some "a")).2 "a" = none ∧
      (reset_session (reset_session [("a", "X"), ("b", "Y")] (some "a")).2 (some "a")).2
        = (reset_session [("a", "X"), ("b", "Y")] (some "a")).2 ∧
      (chat_endpoint (reset_session [("a", "X"), ("b", "Y")] (some "a")).2
          ⟨"a", "hi", some "liteLLM"⟩ (.transportError "t")).upstreamPrompt
        = some ("User: " ++ "hi" ++ "\n" ++ "Assistant:")) :=
  ⟨by decide, C5_reset_idempotent [("a", "X"), ("b", "Y")] "a" "hi"
    (.transportError "t") (by decide)⟩

/-- C8: the history of every stored session only grows under a chat call —
the previously stored history is a prefix of the history stored under the
same key afterwards — and whenever an outbound call is made its prompt is
the full accumulated transcript followed by the "Assistant:" marker. -/
theorem C8_history_monotone (sessions : Store) (msg : Message) (u : UpstreamResult)
    (sid h0 : String) (hs : storeGet sessions sid = some h0) :
    (∃ tail, storeGet (chat_endpoint sessions msg u).sessions sid = some (h0 ++ tail)) ∧
    ((chat_endpoint sessions msg u).upstreamPrompt = none ∨
      (chat_endpoint sessions msg u).upstreamPrompt
        = some ((storeGet sessions msg.session_id).getD ""
            ++ "User: " ++ msg.message ++ "\n" ++ "Assistant:")) := by
  constructor
  · by_cases hm : modelSupported msg.model = true
    · by_cases hid : sid = msg.session_id
      · subst hid
        cases u with
        | transportError cause =>
            refine ⟨"User: " ++ msg.message ++ "\n", ?_⟩
            simp [chat_endpoint, hm, hs, storeGet_storeSet_self, String.append_assoc]
        | jsonBody text? =>
            by_cases hr : strip (text?.getD "") = ""
            · refine ⟨"User: " ++ msg.message ++ "\n", ?_⟩
              simp [chat_endpoint, hm, hs, hr, storeGet_storeSet_self, String.append_assoc]
            · refine ⟨"User: " ++ msg.message ++ "\n" ++ "Assistant: "
                ++ strip (text?.getD "") ++ "\n", ?_⟩
              simp [chat_endpoint, hm, hs, hr, storeGet_storeSet_self, String.append_assoc]
      · refine ⟨"", ?_⟩
        rw [String.append_empty, chat_storeGet_ne _ _ _ _ hid, hs]
    · refine ⟨"", ?_⟩
      rw [String.append_empty]
      simp [chat_endpoint, hm, hs]
  · by_cases hm : modelSupported msg.model = true
    · exact Or.inr (chat_upstreamPrompt_eq sessions msg u hm)
    · exact Or.inl (by simp [chat_endpoint, hm])

/-- Witness for C8: a stored session grows on a successful turn. -/
theorem C8_history_monotone_witness :
    storeGet [("s1", "X")] "s1" = some "X" ∧
    ((∃ tail, storeGet (chat_endpoint [("s1", "X")] ⟨"s1", "q", some "liteLLM"⟩
          (.jsonBody (some "r"))).sessions "s1" = some ("X" ++ tail)) ∧
      ((chat_endpoint [("s1", "X")] ⟨"s1", "q", some "liteLLM"⟩
          (.jsonBody (some "r"))).upstreamPrompt = none ∨
        (chat_endpoint [("s1", "X")] ⟨"s1", "q", some "liteLLM"⟩
            (.jsonBody (some "r"))).upstreamPrompt
          = some ((storeGet [("s1", "X")] "s1").getD ""
              ++ "User: " ++ "q" ++ "\n" ++ "Assistant:"))) :=
  ⟨by decide, C8_history_monotone [("s1", "X")] ⟨"s1", "q", some "liteLLM"⟩
    (.jsonBody (some "r")) "s1" "X" (by decide)⟩

/-- C9: the read step of chat never inserts: for a session id absent from the
store, the id is a key of the resulting store exactly when the response is
the HTTP 200 success (the save step), and any non-success outcome leaves
the store identical. -/
theorem C9_get_does_not_insert (sessions : Store) (msg : Message) (u : UpstreamResult)
    (habs : storeGet sessions msg.session_id = none) :
    (storeGet (chat_endpoint sessions msg u).sessions msg.session_id).isSome
      = ((chat_endpoint sessions msg u).response).isOk ∧
    (((chat_endpoint sessions msg u).response).isOk = false →
      (chat_endpoint sessions msg u).sessions = sessions) := by
  by_cases hm : modelSupported msg.model = true
  · cases u with
    | transportError cause =>
        simp [chat_endpoint, hm, habs, ChatResponse.isOk]
    | jsonBody text? =>
        by_cases hr : strip (text?.getD "") = ""
        · simp [chat_endpoint, hm, habs, hr, ChatResponse.isOk]
        · simp [chat_endpoint, hm, habs, hr, ChatResponse.isOk, storeGet_storeSet_self]
  · simp [chat_endpoint, hm, habs, ChatResponse.isOk]

/-- Witness for C9: a failed first turn on a fresh id inserts nothing. -/
theorem C9_get_does_not_insert_witness :
    storeGet [("other", "Z")] "s1" = none ∧
    ((storeGet (chat_endpoint [("other", "Z")] ⟨"s1", "hi", some "liteLLM"⟩
          (.transportError "boom")).sessions "s1").isSome
        = ((chat_endpoint [("other", "Z")] ⟨"s1", "hi", some "liteLLM"⟩
            (.transportError "boom")).response).isOk ∧
      (((chat_endpoint [("other", "Z")] ⟨"s1", "hi", some "liteLLM"⟩
            (.transportError "boom")).response).isOk = false →
        (chat_endpoint [("other", "Z")] ⟨"s1", "hi", some "liteLLM"⟩
            (.transportError "boom")).sessions = [("other", "Z")])) :=
  ⟨by decide, C9_get_does_not_insert [("other", "Z")] ⟨"s1", "hi", some "liteLLM"⟩
    (.transportError "boom") (by decide)⟩
